import Mathlib

/-!
Verification of the cvmi CLI configuration/tokenizer/argument-parsing core.

This file is a shallow embedding, in Lean, of the pure core of the cvmi
command-line tool:

* `splitCommandString` (src/utils/command.ts) — the command tokenizer;
* `parseEncryptionMode`, `loadConfigFromEnv`, `mergeConfigs`, `loadConfig`,
  `getServeConfig`, `getUseConfig` (src/config/loader.ts) — the configuration
  merge engine (file reads are abstracted: each file source is represented by
  the partial configuration it yields after JSON parsing, a missing or
  unreadable file being the empty partial);
* `parseServeArgs`, `parseUseArgs` (the CLI entry module) — the argument
  parsers for the two command modes;
* the relay defaulting performed at the `serve`/`use` call sites.

JavaScript conventions are made explicit: a possibly-`undefined` value is an
`Option`; the `||` operator on strings is `jsOr` (empty strings are falsy);
the `??` operator is `nullish`; machine strings are Lean `String`s (the
inputs of interest are ASCII, so `lowerStr` models
`String.prototype.toLowerCase` and the explicit `jsWhitespace` set models the
`\s` regex class and `String.prototype.trim`).
-/

namespace Cvmi

/-- Truthiness of a JavaScript string-or-undefined value: `undefined` and the
empty string are falsy, every other string is truthy. -/
def truthy : Option String → Bool
  | none => false
  | some s => !s.isEmpty

/-- JavaScript `a || b` on string-or-undefined values: `a` when `a` is truthy,
otherwise `b`. -/
def jsOr (a b : Option String) : Option String :=
  if truthy a then a else b

/-- JavaScript `a ?? b` (nullish coalescing) on optional values: `a` when `a`
is present (even if falsy), otherwise `b`. -/
def nullish (a b : Option α) : Option α :=
  match a with
  | some v => some v
  | none => b

/-- The character class of the JavaScript regex `\s` (also the set removed by
`String.prototype.trim`): ASCII whitespace plus the Unicode space
separators, line separators and the BOM. -/
def jsWhitespace (c : Char) : Bool :=
  c = ' ' || c = '\t' || c = '\n' || c = '\r' ||
  c = Char.ofNat 0x0b || c = Char.ofNat 0x0c ||
  c = Char.ofNat 0xa0 || c = Char.ofNat 0x1680 ||
  (0x2000 ≤ c.toNat && c.toNat ≤ 0x200a) ||
  c = Char.ofNat 0x2028 || c = Char.ofNat 0x2029 ||
  c = Char.ofNat 0x202f || c = Char.ofNat 0x205f ||
  c = Char.ofNat 0x3000 || c = Char.ofNat 0xfeff

/-- JavaScript `String.prototype.trim` on the character list of a string:
drop `jsWhitespace` characters from both ends. -/
def jsTrim (s : List Char) : List Char :=
  ((s.dropWhile jsWhitespace).reverse.dropWhile jsWhitespace).reverse

/-- Quote state of the tokenizer scanner (the `Quote` type in
src/utils/command.ts). -/
inductive Quote where
  | single
  | double
deriving DecidableEq

/-- The `push` closure of `splitCommandString`: append the current token to
the output list only when it is non-empty. -/
def pushTok (cur : List Char) (out : List String) : List String :=
  if cur.isEmpty then out else out ++ [String.mk cur]

/-- The scanning loop of `splitCommandString` (src/utils/command.ts): one
step per character, with quote toggling, backslash escaping, and whitespace
runs collapsing to a single token boundary. Termination is by the length of
the unread input. -/
def splitLoop : List Char → Option Quote → List Char → List String → List String
  | [], _, cur, out => pushTok cur out
  | ch :: rest, quote, cur, out =>
    if quote = none ∧ jsWhitespace ch then
      -- whitespace splits tokens only when not in quotes; the inner while
      -- loop of the source skips the rest of the whitespace run
      splitLoop (rest.dropWhile jsWhitespace) none [] (pushTok cur out)
    else if quote = none ∧ ch = Char.ofNat 39 then
      splitLoop rest (some .single) cur out
    else if quote = none ∧ ch = '"' then
      splitLoop rest (some .double) cur out
    else if quote = some .single ∧ ch = Char.ofNat 39 then
      splitLoop rest none cur out
    else if quote = some .double ∧ ch = '"' then
      splitLoop rest none cur out
    else if ch = '\\' then
      match rest with
      | [] => splitLoop [] quote (cur ++ ['\\']) out
      | next :: rest2 =>
        if quote ≠ some .single then
          -- outside quotes and inside double quotes the backslash escapes
          -- the next character
          splitLoop rest2 quote (cur ++ [next]) out
        else
          -- inside single quotes the backslash is literal
          splitLoop (next :: rest2) quote (cur ++ [ch]) out
    else
      splitLoop rest quote (cur ++ [ch]) out
  termination_by s _ _ _ => s.length
  decreasing_by
    all_goals simp_wf
    · exact Nat.lt_succ_of_le (List.dropWhile_suffix jsWhitespace).length_le
    all_goals omega

/-- The tokenizer `splitCommandString` (src/utils/command.ts): trim the
input, return no tokens for a blank input, otherwise run the scanning
loop starting outside quotes with an empty current token. -/
def splitCommandString (input : String) : List String :=
  let s := jsTrim input.data
  if s.isEmpty then [] else splitLoop s none [] []

/-- The three encryption policies of `EncryptionMode` from the SDK. -/
inductive EncryptionMode where
  | OPTIONAL
  | REQUIRED
  | DISABLED
deriving DecidableEq

/-- ASCII lowercasing of one character, as `String.prototype.toLowerCase`
acts on ASCII input (the configuration values of interest). -/
def lowerChar (c : Char) : Char :=
  if 65 ≤ c.toNat ∧ c.toNat ≤ 90 then Char.ofNat (c.toNat + 32) else c

/-- JavaScript `s.toLowerCase()` on ASCII input. -/
def lowerStr (s : String) : String :=
  String.mk (s.data.map lowerChar)

/-- The function `parseEncryptionMode` of src/config/loader.ts. The returned
`Bool` records whether the `console.warn` branch for an invalid value was
taken (the `context` parameter of the source only affects the warning text
and is omitted). A falsy input (undefined or empty) yields no value; the
three recognized names are matched after lowercasing; anything else warns
and falls back to `OPTIONAL`. -/
def parseEncryptionMode (value : Option String) : Option EncryptionMode × Bool :=
  match value with
  | none => (none, false)
  | some v =>
    if v.isEmpty then (none, false)
    else
      let normalized := lowerStr v
      if normalized = "required" then (some .REQUIRED, false)
      else if normalized = "disabled" then (some .DISABLED, false)
      else if normalized = "optional" then (some .OPTIONAL, false)
      else (some .OPTIONAL, true)

/-- The SDK `ServerInfo` type. The configuration core never inspects
`ServerInfo` values, it only carries them through merge and defaulting; the
record is therefore modelled by its raw JSON text. -/
structure ServerInfo where
  raw : String
deriving DecidableEq

/-- A sparse (partial) serve-namespace configuration: the field set of
`ServeConfig` (src/config/types.ts), every field possibly absent, as produced
by one configuration source. -/
structure PartialServeConfig where
  privateKey : Option String := none
  relays : Option (List String) := none
  public : Option Bool := none
  allowedPubkeys : Option (List String) := none
  encryption : Option EncryptionMode := none
  serverInfo : Option ServerInfo := none
  command : Option String := none
  args : Option (List String) := none
deriving DecidableEq

/-- A sparse (partial) use-namespace configuration: the field set of
`UseConfig` (src/config/types.ts). -/
structure PartialUseConfig where
  privateKey : Option String := none
  relays : Option (List String) := none
  serverPubkey : Option String := none
  encryption : Option EncryptionMode := none
deriving DecidableEq

/-- A sparse `CvmiConfig` (src/config/types.ts): either namespace may be
absent altogether, as when a source defines only one of them. -/
structure CvmiPartial where
  serve : Option PartialServeConfig := none
  use : Option PartialUseConfig := none
deriving DecidableEq

/-- One merge step of `mergeConfigs` for a single field: a key is copied
from the higher-priority source only when its value is explicitly defined
(`value !== undefined`). -/
def mergeField (acc src : Option α) : Option α :=
  match src with
  | some v => some v
  | none => acc

/-- One reduce step of `mergeConfigs` on the serve namespace: copy every
explicitly-defined field of `src` over `acc`. -/
def mergeTwoServe (acc src : PartialServeConfig) : PartialServeConfig where
  privateKey := mergeField acc.privateKey src.privateKey
  relays := mergeField acc.relays src.relays
  public := mergeField acc.public src.public
  allowedPubkeys := mergeField acc.allowedPubkeys src.allowedPubkeys
  encryption := mergeField acc.encryption src.encryption
  serverInfo := mergeField acc.serverInfo src.serverInfo
  command := mergeField acc.command src.command
  args := mergeField acc.args src.args

/-- One reduce step of `mergeConfigs` on the use namespace. -/
def mergeTwoUse (acc src : PartialUseConfig) : PartialUseConfig where
  privateKey := mergeField acc.privateKey src.privateKey
  relays := mergeField acc.relays src.relays
  serverPubkey := mergeField acc.serverPubkey src.serverPubkey
  encryption := mergeField acc.encryption src.encryption

/-- The generic `mergeConfigs` of src/config/loader.ts, instantiated at the
serve namespace: filter out the `undefined` sources, then fold left from the
empty object, later (higher-priority) sources overriding earlier ones
field by field. -/
def mergeConfigsServe (sources : List (Option PartialServeConfig)) : PartialServeConfig :=
  (sources.filterMap id).foldl mergeTwoServe {}

/-- The generic `mergeConfigs` of src/config/loader.ts, instantiated at the
use namespace. -/
def mergeConfigsUse (sources : List (Option PartialUseConfig)) : PartialUseConfig :=
  (sources.filterMap id).foldl mergeTwoUse {}

/-- The merging core of `loadConfig` (src/config/loader.ts). File and
environment reads are abstracted: each of the five sources is passed as the
partial configuration it contributes (a missing or unreadable file, and the
absent custom file when no `--config` path is given, contribute the empty
partial object). The sources are merged lowest priority first, mirroring the
call `mergeConfigs(env, global, project, custom, cli)` per namespace. -/
def loadConfig (cliFlags customConfig projectConfig globalConfig envConfig : CvmiPartial) :
    PartialServeConfig × PartialUseConfig :=
  (mergeConfigsServe
      [envConfig.serve, globalConfig.serve, projectConfig.serve, customConfig.serve,
        cliFlags.serve],
    mergeConfigsUse
      [envConfig.use, globalConfig.use, projectConfig.use, customConfig.use, cliFlags.use])

/-- Modelled from the spec (§4.2 merge rule), for comparison with the code:
scanning two priority tiers, the higher one wins exactly when it explicitly
defines the field. Chained, this is the "first source whose value is
explicitly present wins" scan from highest to lowest priority. -/
def specFirst (hi lo : Option α) : Option α :=
  match hi with
  | some v => some v
  | none => lo

/-- JavaScript `s.trim()` as a `String` operation. -/
def trimStr (s : String) : String :=
  String.mk (jsTrim s.data)

/-- JavaScript `s.split(',')` on the character list of a string: cut at
every comma, keeping empty pieces (so the result always has one more piece
than the input has commas). -/
def splitOnComma : List Char → List Char → List String
  | [], cur => [String.mk cur]
  | c :: rest, cur =>
    if c = ',' then String.mk cur :: splitOnComma rest []
    else splitOnComma rest (cur ++ [c])

/-- The comma-splitting applied to relay values in src/config/loader.ts and
in the CLI parsers: `value.split(',').map((r) => r.trim())`. -/
def splitCommas (s : String) : List String :=
  (splitOnComma s.data []).map trimStr

/-- An environment snapshot: the sixteen variables read by
`loadConfigFromEnv` (src/config/loader.ts), each possibly unset. -/
structure Env where
  CVMI_GATEWAY_PRIVATE_KEY : Option String := none
  CVMI_SERVE_PRIVATE_KEY : Option String := none
  CVMI_GATEWAY_RELAYS : Option String := none
  CVMI_SERVE_RELAYS : Option String := none
  CVMI_GATEWAY_PUBLIC : Option String := none
  CVMI_SERVE_PUBLIC : Option String := none
  CVMI_GATEWAY_ENCRYPTION : Option String := none
  CVMI_SERVE_ENCRYPTION : Option String := none
  CVMI_PROXY_PRIVATE_KEY : Option String := none
  CVMI_USE_PRIVATE_KEY : Option String := none
  CVMI_PROXY_RELAYS : Option String := none
  CVMI_USE_RELAYS : Option String := none
  CVMI_PROXY_SERVER_PUBKEY : Option String := none
  CVMI_USE_SERVER_PUBKEY : Option String := none
  CVMI_PROXY_ENCRYPTION : Option String := none
  CVMI_USE_ENCRYPTION : Option String := none
deriving DecidableEq

/-- The function `loadConfigFromEnv` of src/config/loader.ts over an
explicit environment snapshot. Each field is guarded by the truthiness of
`LEGACY_VAR || CANONICAL_VAR` (JavaScript `||`, so an empty-string variable
counts as unset); the serve private-key block replaces the namespace object,
the later blocks extend it (`config.serve = config.serve || {}`), and
likewise for the use namespace. -/
def loadConfigFromEnv (env : Env) : CvmiPartial :=
  let servePk := jsOr env.CVMI_GATEWAY_PRIVATE_KEY env.CVMI_SERVE_PRIVATE_KEY
  let serve1 : Option PartialServeConfig :=
    if truthy servePk then some { privateKey := servePk } else none
  let serveRelays := jsOr env.CVMI_GATEWAY_RELAYS env.CVMI_SERVE_RELAYS
  let serve2 : Option PartialServeConfig :=
    if truthy serveRelays then
      some { serve1.getD {} with relays := some (splitCommas (serveRelays.getD "")) }
    else serve1
  let servePub := jsOr env.CVMI_GATEWAY_PUBLIC env.CVMI_SERVE_PUBLIC
  let serve3 : Option PartialServeConfig :=
    if truthy servePub then
      some { serve2.getD {} with public := some (servePub = some "true") }
    else serve2
  let serveEncryption := jsOr env.CVMI_GATEWAY_ENCRYPTION env.CVMI_SERVE_ENCRYPTION
  let serve4 : Option PartialServeConfig :=
    if truthy serveEncryption then
      some { serve3.getD {} with encryption := (parseEncryptionMode serveEncryption).1 }
    else serve3
  let usePk := jsOr env.CVMI_PROXY_PRIVATE_KEY env.CVMI_USE_PRIVATE_KEY
  let use1 : Option PartialUseConfig :=
    if truthy usePk then some { privateKey := usePk } else none
  let useRelays := jsOr env.CVMI_PROXY_RELAYS env.CVMI_USE_RELAYS
  let use2 : Option PartialUseConfig :=
    if truthy useRelays then
      some { use1.getD {} with relays := some (splitCommas (useRelays.getD "")) }
    else use1
  let useServerPubkey := jsOr env.CVMI_PROXY_SERVER_PUBKEY env.CVMI_USE_SERVER_PUBKEY
  let use3 : Option PartialUseConfig :=
    if truthy useServerPubkey then
      some { use2.getD {} with serverPubkey := useServerPubkey }
    else use2
  let useEncryption := jsOr env.CVMI_PROXY_ENCRYPTION env.CVMI_USE_ENCRYPTION
  let use4 : Option PartialUseConfig :=
    if truthy useEncryption then
      some { use3.getD {} with encryption := (parseEncryptionMode useEncryption).1 }
    else use3
  { serve := serve4, use := use4 }

/-- The constant `DEFAULT_RELAYS` of src/config/loader.ts. -/
def DEFAULT_RELAYS : List String :=
  ["wss://relay.contextvm.org", "wss://cvm.otherstuff.ai"]

/-- The constant `DEFAULT_ENCRYPTION` of src/config/loader.ts. -/
def DEFAULT_ENCRYPTION : EncryptionMode := .OPTIONAL

/-- A fully-resolved serve configuration: the return type of
`getServeConfig`. -/
structure ResolvedServeConfig where
  privateKey : String
  relays : List String
  public : Bool
  allowedPubkeys : Option (List String)
  encryption : EncryptionMode
  serverInfo : Option ServerInfo
  command : Option String
  args : Option (List String)
deriving DecidableEq

/-- A fully-resolved use configuration: the return type of `getUseConfig`. -/
structure ResolvedUseConfig where
  privateKey : String
  relays : List String
  serverPubkey : Option String
  encryption : EncryptionMode
deriving DecidableEq

/-- The function `getServeConfig` of src/config/loader.ts: apply defaults
with `cliFlags.f ?? config.f ?? default` per field (`??` is nullish
coalescing, so an explicitly-set falsy value such as the empty relay list
survives defaulting). -/
def getServeConfig (config : PartialServeConfig)
    (cliFlags : PartialServeConfig := {}) : ResolvedServeConfig where
  privateKey := (nullish cliFlags.privateKey config.privateKey).getD ""
  relays := (nullish cliFlags.relays config.relays).getD DEFAULT_RELAYS
  public := (nullish cliFlags.public config.public).getD false
  allowedPubkeys := nullish cliFlags.allowedPubkeys config.allowedPubkeys
  encryption := (nullish cliFlags.encryption config.encryption).getD DEFAULT_ENCRYPTION
  serverInfo := nullish cliFlags.serverInfo config.serverInfo
  command := nullish cliFlags.command config.command
  args := nullish cliFlags.args config.args

/-- The function `getUseConfig` of src/config/loader.ts. -/
def getUseConfig (config : PartialUseConfig)
    (cliFlags : PartialUseConfig := {}) : ResolvedUseConfig where
  privateKey := (nullish cliFlags.privateKey config.privateKey).getD ""
  relays := (nullish cliFlags.relays config.relays).getD DEFAULT_RELAYS
  serverPubkey := nullish cliFlags.serverPubkey config.serverPubkey
  encryption := (nullish cliFlags.encryption config.encryption).getD DEFAULT_ENCRYPTION

/-- The relay list actually handed to the gateway by `serve` (src/serve.ts,
`serveConfig.relays?.length ? serveConfig.relays : DEFAULT_RELAYS`), starting
from the merged partial configuration (`config.serve || {}`; the CLI flags
were already merged by `loadConfig`). An empty list is falsy in JavaScript,
so it is replaced by the defaults here. -/
def serveRelaysRuntime (merged : PartialServeConfig) : List String :=
  let serveConfig := getServeConfig merged
  if serveConfig.relays.isEmpty then DEFAULT_RELAYS else serveConfig.relays

/-- The relay list actually handed to the proxy by `use` (src/use.ts,
`useConfig.relays?.length ? useConfig.relays : DEFAULT_RELAYS`). -/
def useRelaysRuntime (merged : PartialUseConfig) : List String :=
  let useConfig := getUseConfig merged
  if useConfig.relays.isEmpty then DEFAULT_RELAYS else useConfig.relays

/-- JavaScript `s.startsWith(p)` for the dash tests of the parsers: the
characters of `p` lead the characters of `s`. -/
def jsStartsWith (s p : String) : Bool :=
  p.data.isPrefixOf s.data

/-- The result record of `parseServeArgs` (the `ServeParseResult` interface
of the CLI entry module), with the initial values from the source. -/
structure ServeParseResult where
  serverArgs : List String := []
  verbose : Bool := false
  privateKey : Option String := none
  relays : Option (List String) := none
  public : Bool := false
  encryption : Option EncryptionMode := none
  config : Option String := none
  unknownFlags : List String := []
deriving DecidableEq

/-- The result record of `parseUseArgs` (the `UseParseResult` interface of
the CLI entry module), with the initial values from the source. -/
structure UseParseResult where
  serverPubkey : Option String := none
  verbose : Bool := false
  privateKey : Option String := none
  relays : Option (List String) := none
  encryption : Option EncryptionMode := none
  config : Option String := none
  unknownFlags : List String := []
deriving DecidableEq

/-- Splitting of the argument list at the first separator token, modelling
`args.indexOf('--')` followed by the two slices in `parseServeArgs`: the
result is the tokens before the first `--` together with the tokens after it
(`none` when no separator occurs). -/
def splitAtSeparator : List String → List String × Option (List String)
  | [] => ([], none)
  | a :: rest =>
    if a = "--" then ([], some rest)
    else
      let p := splitAtSeparator rest
      (a :: p.1, p.2)

/-- The scanning loop of `parseServeArgs` over the tokens before the
separator. `strict` is the presence of the separator. Each value-taking
flag inlines the `consumeValue` helper of the source: a missing next token
or a next token starting with `--` records `<flag> (missing value)` and, in
the latter case, rewinds so that the next token is processed normally. -/
def goServe (strict : Bool) : List String → ServeParseResult → ServeParseResult
  | [], r => r
  | arg :: rest, r =>
    if arg = "--verbose" then goServe strict rest { r with verbose := true }
    else if arg = "--public" then goServe strict rest { r with public := true }
    else if arg = "--private-key" then
      match rest with
      | [] =>
        goServe strict []
          { r with privateKey := none,
                   unknownFlags := r.unknownFlags ++ ["--private-key (missing value)"] }
      | v :: rest2 =>
        if jsStartsWith v "--" then
          -- roll back: the next token is still processed normally
          goServe strict (v :: rest2)
            { r with privateKey := none,
                     unknownFlags := r.unknownFlags ++ ["--private-key (missing value)"] }
        else goServe strict rest2 { r with privateKey := some v }
    else if arg = "--relays" then
      match rest with
      | [] =>
        goServe strict []
          { r with relays := none,
                   unknownFlags := r.unknownFlags ++ ["--relays (missing value)"] }
      | v :: rest2 =>
        if jsStartsWith v "--" then
          -- roll back: the next token is still processed normally
          goServe strict (v :: rest2)
            { r with relays := none,
                     unknownFlags := r.unknownFlags ++ ["--relays (missing value)"] }
        else
          goServe strict rest2
            { r with relays := if v.isEmpty then none else some (splitCommas v) }
    else if arg = "--encryption-mode" then
      match rest with
      | [] =>
        goServe strict []
          { r with encryption := (parseEncryptionMode none).1,
                   unknownFlags := r.unknownFlags ++ ["--encryption-mode (missing value)"] }
      | v :: rest2 =>
        if jsStartsWith v "--" then
          -- roll back: the next token is still processed normally
          goServe strict (v :: rest2)
            { r with encryption := (parseEncryptionMode none).1,
                     unknownFlags := r.unknownFlags ++ ["--encryption-mode (missing value)"] }
        else goServe strict rest2 { r with encryption := (parseEncryptionMode (some v)).1 }
    else if arg = "--config" then
      match rest with
      | [] =>
        goServe strict []
          { r with config := none,
                   unknownFlags := r.unknownFlags ++ ["--config (missing value)"] }
      | v :: rest2 =>
        if jsStartsWith v "--" then
          -- roll back: the next token is still processed normally
          goServe strict (v :: rest2)
            { r with config := none,
                     unknownFlags := r.unknownFlags ++ ["--config (missing value)"] }
        else goServe strict rest2 { r with config := some v }
    else if arg = "--help" ∨ arg = "-h" then
      -- handled at the call site
      goServe strict rest r
    else if jsStartsWith arg "--" then
      goServe strict rest { r with unknownFlags := r.unknownFlags ++ [arg] }
    else if strict then
      -- with a separator present, non-flag tokens before it are suspicious
      goServe strict rest { r with unknownFlags := r.unknownFlags ++ [arg] }
    else
      -- back-compat: single-dash and non-flag tokens are server args
      goServe strict rest { r with serverArgs := r.serverArgs ++ [arg] }

/-- The function `parseServeArgs` of the CLI entry module: split at the
first `--`, seed the result with everything after it as the server argv,
then scan the tokens before it. -/
def parseServeArgs (args : List String) : ServeParseResult :=
  let p := splitAtSeparator args
  goServe p.2.isSome p.1 { serverArgs := p.2.getD [] }

/-- The scanning loop of `parseUseArgs`: same flag core as the serve mode
(plus `--server-pubkey`, minus `--public`), any other token starting with a
dash is an unknown flag, and the first remaining token is taken as the
positional server pubkey unless one was already set. -/
def goUse : List String → UseParseResult → UseParseResult
  | [], r => r
  | arg :: rest, r =>
    if arg = "--verbose" then goUse rest { r with verbose := true }
    else if arg = "--private-key" then
      match rest with
      | [] =>
        goUse []
          { r with privateKey := none,
                   unknownFlags := r.unknownFlags ++ ["--private-key (missing value)"] }
      | v :: rest2 =>
        if jsStartsWith v "--" then
          -- roll back: the next token is still processed normally
          goUse (v :: rest2)
            { r with privateKey := none,
                     unknownFlags := r.unknownFlags ++ ["--private-key (missing value)"] }
        else goUse rest2 { r with privateKey := some v }
    else if arg = "--relays" then
      match rest with
      | [] =>
        goUse []
          { r with relays := none,
                   unknownFlags := r.unknownFlags ++ ["--relays (missing value)"] }
      | v :: rest2 =>
        if jsStartsWith v "--" then
          -- roll back: the next token is still processed normally
          goUse (v :: rest2)
            { r with relays := none,
                     unknownFlags := r.unknownFlags ++ ["--relays (missing value)"] }
        else
          goUse rest2
            { r with relays := if v.isEmpty then none else some (splitCommas v) }
    else if arg = "--encryption-mode" then
      match rest with
      | [] =>
        goUse []
          { r with encryption := (parseEncryptionMode none).1,
                   unknownFlags := r.unknownFlags ++ ["--encryption-mode (missing value)"] }
      | v :: rest2 =>
        if jsStartsWith v "--" then
          -- roll back: the next token is still processed normally
          goUse (v :: rest2)
            { r with encryption := (parseEncryptionMode none).1,
                     unknownFlags := r.unknownFlags ++ ["--encryption-mode (missing value)"] }
        else goUse rest2 { r with encryption := (parseEncryptionMode (some v)).1 }
    else if arg = "--server-pubkey" then
      match rest with
      | [] =>
        goUse []
          { r with serverPubkey := none,
                   unknownFlags := r.unknownFlags ++ ["--server-pubkey (missing value)"] }
      | v :: rest2 =>
        if jsStartsWith v "--" then
          -- roll back: the next token is still processed normally
          goUse (v :: rest2)
            { r with serverPubkey := none,
                     unknownFlags := r.unknownFlags ++ ["--server-pubkey (missing value)"] }
        else goUse rest2 { r with serverPubkey := some v }
    else if arg = "--config" then
      match rest with
      | [] =>
        goUse []
          { r with config := none,
                   unknownFlags := r.unknownFlags ++ ["--config (missing value)"] }
      | v :: rest2 =>
        if jsStartsWith v "--" then
          -- roll back: the next token is still processed normally
          goUse (v :: rest2)
            { r with config := none,
                     unknownFlags := r.unknownFlags ++ ["--config (missing value)"] }
        else goUse rest2 { r with config := some v }
    else if arg = "--help" ∨ arg = "-h" then
      -- handled at the call site
      goUse rest r
    else if jsStartsWith arg "-" then
      goUse rest { r with unknownFlags := r.unknownFlags ++ [arg] }
    else
      -- first non-flag token is the server pubkey unless one is already set
      goUse rest { r with serverPubkey := nullish r.serverPubkey (some arg) }

/-- The function `parseUseArgs` of the CLI entry module. -/
def parseUseArgs (args : List String) : UseParseResult :=
  goUse args {}

/-! Theorems. -/

/-- C5: the tokenizer maps the two round-trip examples of the specification
to exactly the expected argv lists — whitespace splits tokens outside
quotes, the quote characters themselves are removed, and quoted whitespace
is preserved inside a single token. -/
theorem C5_tokenizer_roundtrip :
    splitCommandString "npx -y \"@scope/pkg\" \"/my dir\"" =
      ["npx", "-y", "@scope/pkg", "/my dir"] ∧
    splitCommandString (String.mk
        ['p', 'y', 't', 'h', 'o', 'n', ' ', '-', 'c', ' ',
          Char.ofNat 39, 'p', 'r', 'i', 'n', 't', '(', '1', ')', Char.ofNat 39]) =
      ["python", "-c", "print(1)"] := by
  constructor <;>
    simp [splitCommandString, jsTrim, splitLoop, jsWhitespace, pushTok, List.dropWhile]

/-- C6: the tokenizer is a total function (its embedding returns a plain,
fully materialized list for every input): a blank input yields the empty
token sequence, an unterminated double or single quote is scanned to end of
input with the remaining characters made part of the current token, and a
final backslash is kept as a literal backslash. -/
theorem C6_tokenizer_total :
    (∀ cs : List Char, (∀ c ∈ cs, jsWhitespace c = true) →
      splitCommandString (String.mk cs) = []) ∧
    splitCommandString "" = [] ∧
    splitCommandString "\"a b" = [String.mk ['a', ' ', 'b']] ∧
    splitCommandString (String.mk [Char.ofNat 39, 'a', ' ', 'b']) =
      [String.mk ['a', ' ', 'b']] ∧
    splitCommandString "ab\\" = [String.mk ['a', 'b', '\\']] := by
  refine ⟨?_, ?_, ?_, ?_, ?_⟩
  · intro cs h
    have hdrop : cs.dropWhile jsWhitespace = [] := by
      rw [List.dropWhile_eq_nil_iff]
      intro c hc
      exact h c hc
    simp [splitCommandString, jsTrim, hdrop]
  all_goals
    simp [splitCommandString, jsTrim, splitLoop, jsWhitespace, pushTok, List.dropWhile]

/-- Closed witness for the hypothesis of `C6_tokenizer_total`: a
two-character all-whitespace input yields no tokens. -/
theorem C6_tokenizer_total_witness :
    splitCommandString (String.mk [' ', '\t']) = [] :=
  C6_tokenizer_total.1 [' ', '\t'] (by decide)

/-- C8: `parseEncryptionMode` recognizes the three policy names
case-insensitively, never fails on any other defined non-empty string (it
warns and falls back to `OPTIONAL`), and yields no value on an undefined or
empty input. -/
theorem C8_parseEncryptionMode_total :
    (∀ s : String, lowerStr s = "required" →
      parseEncryptionMode (some s) = (some .REQUIRED, false)) ∧
    (∀ s : String, lowerStr s = "disabled" →
      parseEncryptionMode (some s) = (some .DISABLED, false)) ∧
    (∀ s : String, lowerStr s = "optional" →
      parseEncryptionMode (some s) = (some .OPTIONAL, false)) ∧
    (∀ s : String, s ≠ "" → lowerStr s ≠ "required" → lowerStr s ≠ "disabled" →
      lowerStr s ≠ "optional" → parseEncryptionMode (some s) = (some .OPTIONAL, true)) ∧
    parseEncryptionMode (some "") = (none, false) ∧
    parseEncryptionMode none = (none, false) := by
  have hne : ∀ s : String, s ≠ "" → s.isEmpty = false := by
    intro s h
    cases hs : s.isEmpty
    · rfl
    · exact absurd ((String.isEmpty_iff s).mp hs) h
  have hlow : ∀ s : String, s = "" → lowerStr s = "" := by
    intro s h
    subst h
    rfl
  refine ⟨?_, ?_, ?_, ?_, by decide, by decide⟩
  · intro s h
    have hs : s ≠ "" := fun he => by simp [hlow s he] at h
    simp [parseEncryptionMode, hne s hs, h]
  · intro s h
    have hs : s ≠ "" := fun he => by simp [hlow s he] at h
    simp [parseEncryptionMode, hne s hs, h]
  · intro s h
    have hs : s ≠ "" := fun he => by simp [hlow s he] at h
    simp [parseEncryptionMode, hne s hs, h]
  · intro s hs h1 h2 h3
    simp [parseEncryptionMode, hne s hs, h1, h2, h3]

/-- Closed witness for the hypotheses of `C8_parseEncryptionMode_total`:
mixed-case recognized names parse to their policies without warning, and an
unrecognized value falls back to `OPTIONAL` with a warning. -/
theorem C8_parseEncryptionMode_total_witness :
    parseEncryptionMode (some "ReQuIrEd") = (some .REQUIRED, false) ∧
    parseEncryptionMode (some "Disabled") = (some .DISABLED, false) ∧
    parseEncryptionMode (some "OPTIONAL") = (some .OPTIONAL, false) ∧
    parseEncryptionMode (some "bogus") = (some .OPTIONAL, true) :=
  ⟨C8_parseEncryptionMode_total.1 "ReQuIrEd" (by decide),
    C8_parseEncryptionMode_total.2.1 "Disabled" (by decide),
    C8_parseEncryptionMode_total.2.2.1 "OPTIONAL" (by decide),
    C8_parseEncryptionMode_total.2.2.2.1 "bogus" (by decide) (by decide) (by decide)
      (by decide)⟩

/-- The `push` closure only ever appends a non-empty token, so it preserves
the invariant that no emitted token is empty. -/
theorem pushTok_ne (cur : List Char) (out : List String)
    (h : ∀ t ∈ out, t ≠ "") : ∀ t ∈ pushTok cur out, t ≠ "" := by
  intro t ht
  unfold pushTok at ht
  by_cases hc : cur.isEmpty
  · simp [hc] at ht
    exact h t ht
  · simp [hc] at ht
    rcases ht with ht | ht
    · exact h t ht
    · subst ht
      intro hcontra
      have hdata : cur = [] := by simpa using congrArg String.data hcontra
      simp [hdata] at hc

/-- The scanning loop preserves the invariant that no emitted token is
empty. -/
theorem splitLoop_ne : ∀ (s : List Char) (q : Option Quote) (cur : List Char)
    (out : List String), (∀ t ∈ out, t ≠ "") →
    ∀ t ∈ splitLoop s q cur out, t ≠ "" := by
  intro s q cur out
  induction s, q, cur, out using splitLoop.induct with
  | case1 q cur out =>
    intro h
    simpa [splitLoop] using pushTok_ne cur out h
  | case2 ch rest quote cur out hc ih =>
    intro h
    rw [splitLoop.eq_def]
    dsimp only []
    rw [if_pos hc]
    exact ih (pushTok_ne cur out h)
  | case3 ch rest quote cur out h1 hc ih =>
    intro h
    rw [splitLoop.eq_def]
    dsimp only []
    rw [if_neg h1, if_pos hc]
    exact ih h
  | case4 ch rest quote cur out h1 h2 hc ih =>
    intro h
    rw [splitLoop.eq_def]
    dsimp only []
    rw [if_neg h1, if_neg h2, if_pos hc]
    exact ih h
  | case5 ch rest quote cur out h1 h2 h3 hc ih =>
    intro h
    rw [splitLoop.eq_def]
    dsimp only []
    rw [if_neg h1, if_neg h2, if_neg h3, if_pos hc]
    exact ih h
  | case6 ch rest quote cur out h1 h2 h3 h4 hc ih =>
    intro h
    rw [splitLoop.eq_def]
    dsimp only []
    rw [if_neg h1, if_neg h2, if_neg h3, if_neg h4, if_pos hc]
    exact ih h
  | case7 quote cur out h1 h2 h3 h4 h5 ih =>
    intro h
    rw [splitLoop.eq_def]
    dsimp only []
    rw [if_neg h1, if_neg h2, if_neg h3, if_neg h4, if_neg h5, if_pos rfl]
    exact ih h
  | case8 quote cur out next rest2 hq h1 h2 h3 h4 h5 ih =>
    intro h
    rw [splitLoop.eq_def]
    dsimp only []
    rw [if_neg h1, if_neg h2, if_neg h3, if_neg h4, if_neg h5, if_pos rfl]
    show ∀ t ∈ (if quote ≠ some Quote.single then _ else _), t ≠ ""
    rw [if_pos hq]
    exact ih h
  | case9 quote cur out next rest2 hq h1 h2 h3 h4 h5 ih =>
    intro h
    rw [splitLoop.eq_def]
    dsimp only []
    rw [if_neg h1, if_neg h2, if_neg h3, if_neg h4, if_neg h5, if_pos rfl]
    show ∀ t ∈ (if quote ≠ some Quote.single then _ else _), t ≠ ""
    rw [if_neg hq]
    exact ih h
  | case10 ch rest quote cur out h1 h2 h3 h4 h5 h6 ih =>
    intro h
    rw [splitLoop.eq_def]
    dsimp only []
    rw [if_neg h1, if_neg h2, if_neg h3, if_neg h4, if_neg h5, if_neg h6]
    exact ih h

/-- C10: every token produced by the tokenizer is a non-empty string (the
`push` closure drops an empty current token), and in particular a quoted
empty string contributes no token at all to the output argv. -/
theorem C10_tokens_nonempty :
    (∀ (input : String) (t : String), t ∈ splitCommandString input → t ≠ "") ∧
    splitCommandString "a \"\" b" = ["a", "b"] := by
  constructor
  · intro input t ht
    unfold splitCommandString at ht
    by_cases hs : (jsTrim input.data).isEmpty
    · simp [hs] at ht
    · simp only [hs, if_neg, Bool.false_eq_true, if_false] at ht
      exact splitLoop_ne _ _ _ _ (by simp) t ht
  · simp [splitCommandString, jsTrim, splitLoop, jsWhitespace, pushTok, List.dropWhile]

/-- Closed witness for the hypothesis of `C10_tokens_nonempty`: the single
token produced for the input `a` is non-empty. -/
theorem C10_tokens_nonempty_witness : "a" ≠ "" :=
  C10_tokens_nonempty.1 "a" "a"
    (by simp [splitCommandString, jsTrim, splitLoop, jsWhitespace, pushTok, List.dropWhile])

/-- Appending on the right never changes a non-empty head. -/
theorem head?_append_some (l l2 : List α) (e : α) (h : l.head? = some e) :
    (l ++ l2).head? = some e := by
  cases l <;> simp_all

/-- Splitting at the separator is the identity when no separator occurs. -/
theorem splitAtSeparator_no_sep : ∀ (args : List String), "--" ∉ args →
    splitAtSeparator args = (args, none) := by
  intro args h
  induction args with
  | nil => simp [splitAtSeparator]
  | cons a rest ih =>
    simp_all [splitAtSeparator]
    exact fun hh => h.1 hh.symm

/-- Splitting at the separator cuts exactly at the first separator token. -/
theorem splitAtSeparator_sep : ∀ (pre post : List String), "--" ∉ pre →
    splitAtSeparator (pre ++ "--" :: post) = (pre, some post) := by
  intro pre post h
  induction pre with
  | nil => simp [splitAtSeparator]
  | cons a rest ih =>
    simp_all [splitAtSeparator]
    exact fun hh => h.1 hh.symm

/-- In strict mode (separator present) the scanning loop never touches the
server argv: everything in `serverArgs` comes from after the separator. -/
theorem goServe_true_serverArgs : ∀ (toks : List String) (r : ServeParseResult),
    (goServe true toks r).serverArgs = r.serverArgs := by
  intro toks r
  induction toks, r using goServe.induct
  case strict => exact true
  all_goals
    solve
      | simp_all [goServe]
      | (rw [goServe.eq_def]; dsimp only []; simp_all)

/-- The scanning loop only ever appends to `unknownFlags`, so a non-empty
head is preserved. -/
theorem goServe_unknown_head : ∀ (strict : Bool) (toks : List String)
    (r : ServeParseResult) (e : String), r.unknownFlags.head? = some e →
    (goServe strict toks r).unknownFlags.head? = some e := by
  intro strict toks r
  induction toks, r using goServe.induct
  case strict => exact strict
  all_goals
    (intro e he ;
     solve
      | simp_all [goServe]
      | (rw [goServe.eq_def]; dsimp only []; simp_all [head?_append_some]))

/-- Tokens other than `--private-key` never write the private-key field of
the serve parse result. -/
theorem goServe_privateKey_preserved : ∀ (strict : Bool) (toks : List String)
    (r : ServeParseResult), "--private-key" ∉ toks →
    (goServe strict toks r).privateKey = r.privateKey := by
  intro strict toks r
  induction toks, r using goServe.induct
  case strict => exact strict
  all_goals
    (intro hmem ;
     solve
      | simp_all [goServe]
      | (rw [goServe.eq_def]; dsimp only []; simp_all))

/-- Tokens other than `--server-pubkey` never overwrite an already-set
server pubkey in the use parse result (positional tokens go through the
nullish check). -/
theorem goUse_serverPubkey_preserved : ∀ (toks : List String) (r : UseParseResult)
    (k : String), "--server-pubkey" ∉ toks → r.serverPubkey = some k →
    (goUse toks r).serverPubkey = some k := by
  intro toks r
  induction toks, r using goUse.induct <;>
    (intro k hmem hr ;
     solve
      | simp_all [goUse, nullish]
      | (rw [goUse.eq_def]; dsimp only []; simp_all [nullish]))

/-- In strict mode, when the tokens before the separator contain no
value-taking flag, `unknownFlags` collects, in order, exactly the tokens
that are neither recognized boolean flags nor help flags: every stray
positional and every unrecognized flag. -/
theorem goServe_true_unknown_filter : ∀ (toks : List String) (r : ServeParseResult),
    (∀ t ∈ toks, t ≠ "--private-key" ∧ t ≠ "--relays" ∧ t ≠ "--encryption-mode" ∧
      t ≠ "--config") →
    (goServe true toks r).unknownFlags = r.unknownFlags ++
      toks.filter (fun t =>
        !(t == "--verbose" || t == "--public" || t == "--help" || t == "-h")) := by
  intro toks r
  induction toks, r using goServe.induct
  case strict => exact true
  case case16 arg rest r h1 h2 h3 h4 h5 h6 hor ih =>
    intro hval
    rcases hor with h | h <;> subst h <;>
      (rw [goServe.eq_def]; dsimp only []; simp_all [List.filter])
  case case17 arg rest r h1 h2 h3 h4 h5 h6 h7 h8 ih =>
    intro hval
    have hn3 : arg ≠ "--help" := fun hh => h7 (Or.inl hh)
    have hn4 : arg ≠ "-h" := fun hh => h7 (Or.inr hh)
    have hb1 : (arg == "--verbose") = false := by simp [h1]
    have hb2 : (arg == "--public") = false := by simp [h2]
    have hb3 : (arg == "--help") = false := by simp [hn3]
    have hb4 : (arg == "-h") = false := by simp [hn4]
    have hrest : ∀ t ∈ rest, t ≠ "--private-key" ∧ t ≠ "--relays" ∧
        t ≠ "--encryption-mode" ∧ t ≠ "--config" :=
      fun t ht => hval t (List.mem_cons_of_mem _ ht)
    rw [goServe.eq_def]
    dsimp only []
    rw [if_neg h1, if_neg h2, if_neg h3, if_neg h4, if_neg h5, if_neg h6, if_neg h7,
      if_pos h8]
    rw [ih hrest]
    dsimp only []
    simp [List.filter_cons, hb1, hb2, hb3, hb4, List.append_assoc]
  case case18 arg rest r h1 h2 h3 h4 h5 h6 h7 h8 h9 ih =>
    intro hval
    have hn3 : arg ≠ "--help" := fun hh => h7 (Or.inl hh)
    have hn4 : arg ≠ "-h" := fun hh => h7 (Or.inr hh)
    have hb1 : (arg == "--verbose") = false := by simp [h1]
    have hb2 : (arg == "--public") = false := by simp [h2]
    have hb3 : (arg == "--help") = false := by simp [hn3]
    have hb4 : (arg == "-h") = false := by simp [hn4]
    have hrest : ∀ t ∈ rest, t ≠ "--private-key" ∧ t ≠ "--relays" ∧
        t ≠ "--encryption-mode" ∧ t ≠ "--config" :=
      fun t ht => hval t (List.mem_cons_of_mem _ ht)
    rw [goServe.eq_def]
    dsimp only []
    rw [if_neg h1, if_neg h2, if_neg h3, if_neg h4, if_neg h5, if_neg h6, if_neg h7,
      if_neg h8, if_pos h9]
    rw [ih hrest]
    dsimp only []
    simp [List.filter_cons, hb1, hb2, hb3, hb4, List.append_assoc]
  all_goals
    (intro hval ;
     solve
      | simp_all [goServe, beq_iff_eq]
      | (rw [goServe.eq_def]; dsimp only []; simp_all [List.filter, beq_iff_eq]))

/-- C2: with a separator present, `parseServeArgs` returns exactly the
tokens after the first separator, verbatim and in order, as the target argv
(flag-like tokens after the separator are never interpreted as cvmi flags);
tokens before the separator that are neither recognized flags nor help
flags — stray positionals and unrecognized flags alike — are recorded in
`unknownFlags` in order; and the two examples of the specification parse as
stated. -/
theorem C2_separator_semantics :
    (∀ pre post : List String, "--" ∉ pre →
      (parseServeArgs (pre ++ "--" :: post)).serverArgs = post) ∧
    (∀ pre post : List String, "--" ∉ pre →
      (∀ t ∈ pre, t ≠ "--private-key" ∧ t ≠ "--relays" ∧ t ≠ "--encryption-mode" ∧
        t ≠ "--config") →
      (parseServeArgs (pre ++ "--" :: post)).unknownFlags =
        pre.filter (fun t =>
          !(t == "--verbose" || t == "--public" || t == "--help" || t == "-h"))) ∧
    parseServeArgs ["--verbose", "--", "npx", "-y", "server", "--help"] =
      { serverArgs := ["npx", "-y", "server", "--help"], verbose := true } ∧
    parseServeArgs ["npx", "--", "server"] =
      { serverArgs := ["server"], unknownFlags := ["npx"] } := by
  refine ⟨?_, ?_, ?_, ?_⟩
  · intro pre post h
    simp [parseServeArgs, splitAtSeparator_sep pre post h, goServe_true_serverArgs]
  · intro pre post h hval
    have hfil := goServe_true_unknown_filter pre { serverArgs := post } hval
    simp [parseServeArgs, splitAtSeparator_sep pre post h, hfil]
  · simp [parseServeArgs, splitAtSeparator, goServe]
  · simp [parseServeArgs, splitAtSeparator, goServe]

/-- Closed witness for the hypotheses of `C2_separator_semantics`: a
verbose flag before the separator, and a stray positional before the
separator, behave as claimed on concrete inputs. -/
theorem C2_separator_semantics_witness :
    (parseServeArgs ["--verbose", "--", "x"]).serverArgs = ["x"] ∧
    (parseServeArgs ["npx", "--"]).unknownFlags = ["npx"] :=
  ⟨C2_separator_semantics.1 ["--verbose"] ["x"] (by decide),
    by simpa using C2_separator_semantics.2.1 ["npx"] [] (by decide) (by decide)⟩


/-- C4: a value-taking flag whose value is missing — last token, or followed
by another long flag — records `<flag> (missing value)`, leaves its field
unset, and still processes the following flag normally; this holds for
every value-taking flag in both parse modes. -/
theorem C4_missing_value :
    (∀ v : String, jsStartsWith v "--" = true →
      (parseServeArgs ["--private-key", v]).privateKey = none ∧
      (parseServeArgs ["--private-key", v]).unknownFlags.head? =
        some "--private-key (missing value)") ∧
    parseServeArgs ["--private-key"] =
      { unknownFlags := ["--private-key (missing value)"] } ∧
    parseServeArgs ["--private-key", "--verbose"] =
      { verbose := true, unknownFlags := ["--private-key (missing value)"] } ∧
    parseServeArgs ["--relays", "--"] =
      { unknownFlags := ["--relays (missing value)"] } ∧
    parseServeArgs ["--encryption-mode"] =
      { unknownFlags := ["--encryption-mode (missing value)"] } ∧
    parseServeArgs ["--config", "--verbose"] =
      { verbose := true, unknownFlags := ["--config (missing value)"] } ∧
    parseUseArgs ["--private-key", "--verbose"] =
      { verbose := true, unknownFlags := ["--private-key (missing value)"] } ∧
    parseUseArgs ["--relays"] =
      { unknownFlags := ["--relays (missing value)"] } ∧
    parseUseArgs ["--encryption-mode", "--verbose"] =
      { verbose := true, unknownFlags := ["--encryption-mode (missing value)"] } ∧
    parseUseArgs ["--server-pubkey"] =
      { unknownFlags := ["--server-pubkey (missing value)"] } ∧
    parseUseArgs ["--config"] =
      { unknownFlags := ["--config (missing value)"] } := by
  refine ⟨?_, ?_, ?_, ?_, ?_, ?_, ?_, ?_, ?_, ?_, ?_⟩
  · intro v hv
    by_cases hsep : v = "--"
    · subst hsep
      constructor <;> simp [parseServeArgs, splitAtSeparator, goServe]
    · have hvs : "--" ≠ v := fun hh => hsep hh.symm
      have hns : "--" ∉ ["--private-key", v] := by simp [hvs]
      have hsplit := splitAtSeparator_no_sep _ hns
      have hstep : parseServeArgs ["--private-key", v] =
          goServe false [v]
            { privateKey := none,
              unknownFlags := ["--private-key (missing value)"] } := by
        simp only [parseServeArgs, hsplit, Option.isSome_none, Option.getD_none]
        rw [goServe.eq_def]
        dsimp only []
        rw [if_neg (by decide), if_neg (by decide), if_pos rfl, if_pos hv]
        simp
      constructor
      · by_cases hvp : v = "--private-key"
        · subst hvp
          rw [hstep]
          simp [goServe]
        · have hmem2 : "--private-key" ∉ [v] := by
            simp only [List.mem_singleton]
            exact fun hh => hvp hh.symm
          rw [hstep, goServe_privateKey_preserved false [v] _ hmem2]
      · rw [hstep]
        exact goServe_unknown_head false [v] _ _ (by simp)
  all_goals
    simp [parseServeArgs, parseUseArgs, splitAtSeparator, goServe, goUse,
      parseEncryptionMode,
      show jsStartsWith "--verbose" "--" = true from by decide]

/-- Closed witness for the hypothesis of `C4_missing_value`: the
missing-value entry and the unset private key, with `--verbose` following
the orphaned flag. -/
theorem C4_missing_value_witness :
    (parseServeArgs ["--private-key", "--verbose"]).privateKey = none ∧
    (parseServeArgs ["--private-key", "--verbose"]).unknownFlags.head? =
      some "--private-key (missing value)" :=
  C4_missing_value.1 "--verbose" (by decide)

/-- In use mode, a leading run of non-flag tokens followed by an explicit
`--server-pubkey` with a proper value, followed by more non-flag tokens,
resolves the server pubkey to the flag value. -/
theorem goUse_flag_value_wins : ∀ (ps : List String) (r : UseParseResult)
    (v : String) (qs : List String),
    (∀ t ∈ ps, jsStartsWith t "-" = false) →
    (∀ t ∈ qs, jsStartsWith t "-" = false) →
    jsStartsWith v "--" = false →
    (goUse (ps ++ "--server-pubkey" :: v :: qs) r).serverPubkey = some v := by
  intro ps
  induction ps with
  | nil =>
    intro r v qs _ hqs hv
    have hmem : "--server-pubkey" ∉ qs := by
      intro hm
      have := hqs _ hm
      exact absurd this (by decide)
    rw [List.nil_append, goUse.eq_def]
    dsimp only []
    rw [if_neg (by decide), if_neg (by decide), if_neg (by decide), if_neg (by decide),
      if_pos rfl]
    rw [if_neg (by simp [hv])]
    exact goUse_serverPubkey_preserved qs _ v hmem rfl
  | cons p ps ih =>
    intro r v qs hps hqs hv
    have hp := hps p (by simp)
    have hflag : ∀ name : String, jsStartsWith name "-" = true → ¬p = name :=
      fun name hn hh => by
        rw [hh] at hp
        rw [hp] at hn
        exact Bool.false_ne_true hn
    have hor : ¬(p = "--help" ∨ p = "-h") := by
      rintro (hh | hh)
      · exact hflag "--help" (by decide) hh
      · exact hflag "-h" (by decide) hh
    rw [List.cons_append, goUse.eq_def]
    dsimp only []
    rw [if_neg (hflag "--verbose" (by decide)),
      if_neg (hflag "--private-key" (by decide)),
      if_neg (hflag "--relays" (by decide)),
      if_neg (hflag "--encryption-mode" (by decide)),
      if_neg (hflag "--server-pubkey" (by decide)),
      if_neg (hflag "--config" (by decide)),
      if_neg hor,
      if_neg (by simp [hp])]
    exact ih _ v qs (fun t ht => hps t (List.mem_cons_of_mem _ ht)) hqs hv

/-- In use mode, with no `--server-pubkey` flag anywhere after it, a leading
non-flag token becomes the server pubkey and is never overwritten. -/
theorem goUse_first_positional : ∀ (p : String) (rest : List String),
    jsStartsWith p "-" = false → "--server-pubkey" ∉ rest →
    (parseUseArgs (p :: rest)).serverPubkey = some p := by
  intro p rest hp hmem
  have hflag : ∀ name : String, jsStartsWith name "-" = true → ¬p = name :=
    fun name hn hh => by
      rw [hh] at hp
      rw [hp] at hn
      exact Bool.false_ne_true hn
  have hor : ¬(p = "--help" ∨ p = "-h") := by
    rintro (hh | hh)
    · exact hflag "--help" (by decide) hh
    · exact hflag "-h" (by decide) hh
  unfold parseUseArgs
  rw [goUse.eq_def]
  dsimp only []
  rw [if_neg (hflag "--verbose" (by decide)),
    if_neg (hflag "--private-key" (by decide)),
    if_neg (hflag "--relays" (by decide)),
    if_neg (hflag "--encryption-mode" (by decide)),
    if_neg (hflag "--server-pubkey" (by decide)),
    if_neg (hflag "--config" (by decide)),
    if_neg hor,
    if_neg (by simp [hp])]
  exact goUse_serverPubkey_preserved rest _ p hmem rfl

/-- C7: in use mode, an explicit `--server-pubkey <value>` flag determines
the server pubkey whether the positional tokens come before or after it;
with no such flag, the first non-flag token wins even when several non-flag
tokens appear. -/
theorem C7_use_pubkey_precedence :
    (∀ (ps : List String) (v : String) (qs : List String),
      (∀ t ∈ ps, jsStartsWith t "-" = false) →
      (∀ t ∈ qs, jsStartsWith t "-" = false) →
      jsStartsWith v "--" = false →
      (parseUseArgs (ps ++ "--server-pubkey" :: v :: qs)).serverPubkey = some v) ∧
    (∀ (p : String) (rest : List String), jsStartsWith p "-" = false →
      "--server-pubkey" ∉ rest →
      (parseUseArgs (p :: rest)).serverPubkey = some p) ∧
    (parseUseArgs ["posA", "--server-pubkey", "pkB"]).serverPubkey = some "pkB" ∧
    (parseUseArgs ["--server-pubkey", "pkB", "posA", "posC"]).serverPubkey =
      some "pkB" := by
  refine ⟨?_, goUse_first_positional, ?_, ?_⟩
  · intro ps v qs hps hqs hv
    exact goUse_flag_value_wins ps {} v qs hps hqs hv
  · exact goUse_flag_value_wins ["posA"] {} "pkB" [] (by decide) (by decide) (by decide)
  · exact goUse_flag_value_wins [] {} "pkB" ["posA", "posC"] (by decide) (by decide)
      (by decide)

/-- Closed witness for the hypotheses of `C7_use_pubkey_precedence`: flag
value beats a positional, and the first of two positionals wins without a
flag. -/
theorem C7_use_pubkey_precedence_witness :
    (parseUseArgs ["alpha", "--server-pubkey", "beta"]).serverPubkey = some "beta" ∧
    (parseUseArgs ["alpha", "gamma"]).serverPubkey = some "alpha" :=
  ⟨C7_use_pubkey_precedence.1 ["alpha"] "beta" [] (by decide) (by decide) (by decide),
    C7_use_pubkey_precedence.2.1 "alpha" ["gamma"] (by decide) (by decide)⟩


/-- Applying a field accessor after defaulting an absent namespace to the
empty partial is the same as binding through the optional namespace, as
long as the accessor returns nothing on the empty partial. -/
theorem bind_getD (s : Option β) (dflt : β) (f : β → Option α)
    (hd : f dflt = none) : f (s.getD dflt) = s.bind f := by
  cases s <;> simp [hd]

/-- Filtering out the `undefined` sources before the reduce is the same as
treating them as empty partials: merging with an empty partial changes
nothing. -/
theorem mergeConfigsServe_getD (sources : List (Option PartialServeConfig)) :
    mergeConfigsServe sources =
      (sources.map (fun s => s.getD {})).foldl mergeTwoServe {} := by
  have key : ∀ (ss : List (Option PartialServeConfig)) (acc : PartialServeConfig),
      (ss.filterMap id).foldl mergeTwoServe acc =
        (ss.map (fun s => s.getD {})).foldl mergeTwoServe acc := by
    intro ss
    induction ss with
    | nil => intro acc; rfl
    | cons s rest ih =>
      intro acc
      cases s with
      | none => simpa [List.filterMap_cons] using ih acc
      | some x => simpa [List.filterMap_cons] using ih (mergeTwoServe acc x)
  exact key sources {}

/-- Use-namespace version of `mergeConfigsServe_getD`. -/
theorem mergeConfigsUse_getD (sources : List (Option PartialUseConfig)) :
    mergeConfigsUse sources =
      (sources.map (fun s => s.getD {})).foldl mergeTwoUse {} := by
  have key : ∀ (ss : List (Option PartialUseConfig)) (acc : PartialUseConfig),
      (ss.filterMap id).foldl mergeTwoUse acc =
        (ss.map (fun s => s.getD {})).foldl mergeTwoUse acc := by
    intro ss
    induction ss with
    | nil => intro acc; rfl
    | cons s rest ih =>
      intro acc
      cases s with
      | none => simpa [List.filterMap_cons] using ih acc
      | some x => simpa [List.filterMap_cons] using ih (mergeTwoUse acc x)
  exact key sources {}

/-- Folding the per-field merge step over five sources in
lowest-to-highest order equals the specification scan from highest to
lowest priority: the first explicitly-present value wins. -/
theorem mergeField_chain (a b c d e : Option α) :
    mergeField (mergeField (mergeField (mergeField (mergeField none a) b) c) d) e =
      specFirst e (specFirst d (specFirst c (specFirst b a))) := by
  cases e <;> cases d <;> cases c <;> cases b <;> cases a <;> rfl

/-- C1: for every family of five partial sources and every field of either
namespace, `loadConfig` resolves the field to the value of the
highest-priority source that explicitly defines it (CLI over custom file
over project file over global file over environment); a source that omits
the field is skipped, and a higher-priority explicitly-set empty list wins
over a lower tier's non-empty one (final conjunct). The refinement compares
the code-side fold (`mergeConfigs`) with the spec-side priority scan
(`specFirst`). -/
theorem C1_merge_precedence (cli custom project global env : CvmiPartial) :
    ((loadConfig cli custom project global env).1.privateKey =
      specFirst (cli.serve.bind PartialServeConfig.privateKey)
        (specFirst (custom.serve.bind PartialServeConfig.privateKey)
          (specFirst (project.serve.bind PartialServeConfig.privateKey)
            (specFirst (global.serve.bind PartialServeConfig.privateKey)
              (env.serve.bind PartialServeConfig.privateKey))))) ∧
    ((loadConfig cli custom project global env).1.relays =
      specFirst (cli.serve.bind PartialServeConfig.relays)
        (specFirst (custom.serve.bind PartialServeConfig.relays)
          (specFirst (project.serve.bind PartialServeConfig.relays)
            (specFirst (global.serve.bind PartialServeConfig.relays)
              (env.serve.bind PartialServeConfig.relays))))) ∧
    ((loadConfig cli custom project global env).1.public =
      specFirst (cli.serve.bind PartialServeConfig.public)
        (specFirst (custom.serve.bind PartialServeConfig.public)
          (specFirst (project.serve.bind PartialServeConfig.public)
            (specFirst (global.serve.bind PartialServeConfig.public)
              (env.serve.bind PartialServeConfig.public))))) ∧
    ((loadConfig cli custom project global env).1.allowedPubkeys =
      specFirst (cli.serve.bind PartialServeConfig.allowedPubkeys)
        (specFirst (custom.serve.bind PartialServeConfig.allowedPubkeys)
          (specFirst (project.serve.bind PartialServeConfig.allowedPubkeys)
            (specFirst (global.serve.bind PartialServeConfig.allowedPubkeys)
              (env.serve.bind PartialServeConfig.allowedPubkeys))))) ∧
    ((loadConfig cli custom project global env).1.encryption =
      specFirst (cli.serve.bind PartialServeConfig.encryption)
        (specFirst (custom.serve.bind PartialServeConfig.encryption)
          (specFirst (project.serve.bind PartialServeConfig.encryption)
            (specFirst (global.serve.bind PartialServeConfig.encryption)
              (env.serve.bind PartialServeConfig.encryption))))) ∧
    ((loadConfig cli custom project global env).1.serverInfo =
      specFirst (cli.serve.bind PartialServeConfig.serverInfo)
        (specFirst (custom.serve.bind PartialServeConfig.serverInfo)
          (specFirst (project.serve.bind PartialServeConfig.serverInfo)
            (specFirst (global.serve.bind PartialServeConfig.serverInfo)
              (env.serve.bind PartialServeConfig.serverInfo))))) ∧
    ((loadConfig cli custom project global env).1.command =
      specFirst (cli.serve.bind PartialServeConfig.command)
        (specFirst (custom.serve.bind PartialServeConfig.command)
          (specFirst (project.serve.bind PartialServeConfig.command)
            (specFirst (global.serve.bind PartialServeConfig.command)
              (env.serve.bind PartialServeConfig.command))))) ∧
    ((loadConfig cli custom project global env).1.args =
      specFirst (cli.serve.bind PartialServeConfig.args)
        (specFirst (custom.serve.bind PartialServeConfig.args)
          (specFirst (project.serve.bind PartialServeConfig.args)
            (specFirst (global.serve.bind PartialServeConfig.args)
              (env.serve.bind PartialServeConfig.args))))) ∧
    ((loadConfig cli custom project global env).2.privateKey =
      specFirst (cli.use.bind PartialUseConfig.privateKey)
        (specFirst (custom.use.bind PartialUseConfig.privateKey)
          (specFirst (project.use.bind PartialUseConfig.privateKey)
            (specFirst (global.use.bind PartialUseConfig.privateKey)
              (env.use.bind PartialUseConfig.privateKey))))) ∧
    ((loadConfig cli custom project global env).2.relays =
      specFirst (cli.use.bind PartialUseConfig.relays)
        (specFirst (custom.use.bind PartialUseConfig.relays)
          (specFirst (project.use.bind PartialUseConfig.relays)
            (specFirst (global.use.bind PartialUseConfig.relays)
              (env.use.bind PartialUseConfig.relays))))) ∧
    ((loadConfig cli custom project global env).2.serverPubkey =
      specFirst (cli.use.bind PartialUseConfig.serverPubkey)
        (specFirst (custom.use.bind PartialUseConfig.serverPubkey)
          (specFirst (project.use.bind PartialUseConfig.serverPubkey)
            (specFirst (global.use.bind PartialUseConfig.serverPubkey)
              (env.use.bind PartialUseConfig.serverPubkey))))) ∧
    ((loadConfig cli custom project global env).2.encryption =
      specFirst (cli.use.bind PartialUseConfig.encryption)
        (specFirst (custom.use.bind PartialUseConfig.encryption)
          (specFirst (project.use.bind PartialUseConfig.encryption)
            (specFirst (global.use.bind PartialUseConfig.encryption)
              (env.use.bind PartialUseConfig.encryption))))) ∧
    (loadConfig { serve := some { privateKey := some "k" } }
        { serve := some { relays := some [] } }
        { serve := some { relays := some ["wss://p"] } } {}
        { serve := some { relays := some ["wss://e"] } }).1.relays = some [] := by
  refine ⟨?_, ?_, ?_, ?_, ?_, ?_, ?_, ?_, ?_, ?_, ?_, ?_, by decide⟩
  · simp only [loadConfig]
    rw [mergeConfigsServe_getD]
    simp only [List.map_cons, List.map_nil, List.foldl_cons, List.foldl_nil]
    dsimp only [mergeTwoServe]
    rw [mergeField_chain]
    rw [bind_getD env.serve {} PartialServeConfig.privateKey rfl,
      bind_getD global.serve {} PartialServeConfig.privateKey rfl,
      bind_getD project.serve {} PartialServeConfig.privateKey rfl,
      bind_getD custom.serve {} PartialServeConfig.privateKey rfl,
      bind_getD cli.serve {} PartialServeConfig.privateKey rfl]
  · simp only [loadConfig]
    rw [mergeConfigsServe_getD]
    simp only [List.map_cons, List.map_nil, List.foldl_cons, List.foldl_nil]
    dsimp only [mergeTwoServe]
    rw [mergeField_chain]
    rw [bind_getD env.serve {} PartialServeConfig.relays rfl,
      bind_getD global.serve {} PartialServeConfig.relays rfl,
      bind_getD project.serve {} PartialServeConfig.relays rfl,
      bind_getD custom.serve {} PartialServeConfig.relays rfl,
      bind_getD cli.serve {} PartialServeConfig.relays rfl]
  · simp only [loadConfig]
    rw [mergeConfigsServe_getD]
    simp only [List.map_cons, List.map_nil, List.foldl_cons, List.foldl_nil]
    dsimp only [mergeTwoServe]
    rw [mergeField_chain]
    rw [bind_getD env.serve {} PartialServeConfig.public rfl,
      bind_getD global.serve {} PartialServeConfig.public rfl,
      bind_getD project.serve {} PartialServeConfig.public rfl,
      bind_getD custom.serve {} PartialServeConfig.public rfl,
      bind_getD cli.serve {} PartialServeConfig.public rfl]
  · simp only [loadConfig]
    rw [mergeConfigsServe_getD]
    simp only [List.map_cons, List.map_nil, List.foldl_cons, List.foldl_nil]
    dsimp only [mergeTwoServe]
    rw [mergeField_chain]
    rw [bind_getD env.serve {} PartialServeConfig.allowedPubkeys rfl,
      bind_getD global.serve {} PartialServeConfig.allowedPubkeys rfl,
      bind_getD project.serve {} PartialServeConfig.allowedPubkeys rfl,
      bind_getD custom.serve {} PartialServeConfig.allowedPubkeys rfl,
      bind_getD cli.serve {} PartialServeConfig.allowedPubkeys rfl]
  · simp only [loadConfig]
    rw [mergeConfigsServe_getD]
    simp only [List.map_cons, List.map_nil, List.foldl_cons, List.foldl_nil]
    dsimp only [mergeTwoServe]
    rw [mergeField_chain]
    rw [bind_getD env.serve {} PartialServeConfig.encryption rfl,
      bind_getD global.serve {} PartialServeConfig.encryption rfl,
      bind_getD project.serve {} PartialServeConfig.encryption rfl,
      bind_getD custom.serve {} PartialServeConfig.encryption rfl,
      bind_getD cli.serve {} PartialServeConfig.encryption rfl]
  · simp only [loadConfig]
    rw [mergeConfigsServe_getD]
    simp only [List.map_cons, List.map_nil, List.foldl_cons, List.foldl_nil]
    dsimp only [mergeTwoServe]
    rw [mergeField_chain]
    rw [bind_getD env.serve {} PartialServeConfig.serverInfo rfl,
      bind_getD global.serve {} PartialServeConfig.serverInfo rfl,
      bind_getD project.serve {} PartialServeConfig.serverInfo rfl,
      bind_getD custom.serve {} PartialServeConfig.serverInfo rfl,
      bind_getD cli.serve {} PartialServeConfig.serverInfo rfl]
  · simp only [loadConfig]
    rw [mergeConfigsServe_getD]
    simp only [List.map_cons, List.map_nil, List.foldl_cons, List.foldl_nil]
    dsimp only [mergeTwoServe]
    rw [mergeField_chain]
    rw [bind_getD env.serve {} PartialServeConfig.command rfl,
      bind_getD global.serve {} PartialServeConfig.command rfl,
      bind_getD project.serve {} PartialServeConfig.command rfl,
      bind_getD custom.serve {} PartialServeConfig.command rfl,
      bind_getD cli.serve {} PartialServeConfig.command rfl]
  · simp only [loadConfig]
    rw [mergeConfigsServe_getD]
    simp only [List.map_cons, List.map_nil, List.foldl_cons, List.foldl_nil]
    dsimp only [mergeTwoServe]
    rw [mergeField_chain]
    rw [bind_getD env.serve {} PartialServeConfig.args rfl,
      bind_getD global.serve {} PartialServeConfig.args rfl,
      bind_getD project.serve {} PartialServeConfig.args rfl,
      bind_getD custom.serve {} PartialServeConfig.args rfl,
      bind_getD cli.serve {} PartialServeConfig.args rfl]
  · simp only [loadConfig]
    rw [mergeConfigsUse_getD]
    simp only [List.map_cons, List.map_nil, List.foldl_cons, List.foldl_nil]
    dsimp only [mergeTwoUse]
    rw [mergeField_chain]
    rw [bind_getD env.use {} PartialUseConfig.privateKey rfl,
      bind_getD global.use {} PartialUseConfig.privateKey rfl,
      bind_getD project.use {} PartialUseConfig.privateKey rfl,
      bind_getD custom.use {} PartialUseConfig.privateKey rfl,
      bind_getD cli.use {} PartialUseConfig.privateKey rfl]
  · simp only [loadConfig]
    rw [mergeConfigsUse_getD]
    simp only [List.map_cons, List.map_nil, List.foldl_cons, List.foldl_nil]
    dsimp only [mergeTwoUse]
    rw [mergeField_chain]
    rw [bind_getD env.use {} PartialUseConfig.relays rfl,
      bind_getD global.use {} PartialUseConfig.relays rfl,
      bind_getD project.use {} PartialUseConfig.relays rfl,
      bind_getD custom.use {} PartialUseConfig.relays rfl,
      bind_getD cli.use {} PartialUseConfig.relays rfl]
  · simp only [loadConfig]
    rw [mergeConfigsUse_getD]
    simp only [List.map_cons, List.map_nil, List.foldl_cons, List.foldl_nil]
    dsimp only [mergeTwoUse]
    rw [mergeField_chain]
    rw [bind_getD env.use {} PartialUseConfig.serverPubkey rfl,
      bind_getD global.use {} PartialUseConfig.serverPubkey rfl,
      bind_getD project.use {} PartialUseConfig.serverPubkey rfl,
      bind_getD custom.use {} PartialUseConfig.serverPubkey rfl,
      bind_getD cli.use {} PartialUseConfig.serverPubkey rfl]
  · simp only [loadConfig]
    rw [mergeConfigsUse_getD]
    simp only [List.map_cons, List.map_nil, List.foldl_cons, List.foldl_nil]
    dsimp only [mergeTwoUse]
    rw [mergeField_chain]
    rw [bind_getD env.use {} PartialUseConfig.encryption rfl,
      bind_getD global.use {} PartialUseConfig.encryption rfl,
      bind_getD project.use {} PartialUseConfig.encryption rfl,
      bind_getD custom.use {} PartialUseConfig.encryption rfl,
      bind_getD cli.use {} PartialUseConfig.encryption rfl]


/-- JavaScript `a || b` returns `a` when `a` is truthy. -/
theorem jsOr_left (a b : Option String) (h : truthy a = true) : jsOr a b = a := by
  simp [jsOr, h]

/-- JavaScript `a || b` returns `b` when `a` is falsy. -/
theorem jsOr_right (a b : Option String) (h : truthy a = false) : jsOr a b = b := by
  simp [jsOr, h]

/-- Characterization of the `privateKey` field of the serve namespace produced by
`loadConfigFromEnv`, in terms of the `||`-combination of its two
environment variables. -/
theorem loadConfigFromEnv_serve_privateKey (env : Env) :
    (loadConfigFromEnv env).serve.bind PartialServeConfig.privateKey =
      (if truthy (jsOr env.CVMI_GATEWAY_PRIVATE_KEY env.CVMI_SERVE_PRIVATE_KEY) then jsOr env.CVMI_GATEWAY_PRIVATE_KEY env.CVMI_SERVE_PRIVATE_KEY else none) := by
  unfold loadConfigFromEnv
  dsimp only []
  split_ifs <;> rfl
/-- Characterization of the `relays` field of the serve namespace produced by
`loadConfigFromEnv`, in terms of the `||`-combination of its two
environment variables. -/
theorem loadConfigFromEnv_serve_relays (env : Env) :
    (loadConfigFromEnv env).serve.bind PartialServeConfig.relays =
      (if truthy (jsOr env.CVMI_GATEWAY_RELAYS env.CVMI_SERVE_RELAYS) then some (splitCommas ((jsOr env.CVMI_GATEWAY_RELAYS env.CVMI_SERVE_RELAYS).getD "")) else none) := by
  unfold loadConfigFromEnv
  dsimp only []
  split_ifs <;> rfl
/-- Characterization of the `public` field of the serve namespace produced by
`loadConfigFromEnv`, in terms of the `||`-combination of its two
environment variables. -/
theorem loadConfigFromEnv_serve_public (env : Env) :
    (loadConfigFromEnv env).serve.bind PartialServeConfig.public =
      (if truthy (jsOr env.CVMI_GATEWAY_PUBLIC env.CVMI_SERVE_PUBLIC) then some (decide (jsOr env.CVMI_GATEWAY_PUBLIC env.CVMI_SERVE_PUBLIC = some "true")) else none) := by
  unfold loadConfigFromEnv
  dsimp only []
  split_ifs <;> rfl
/-- Characterization of the `encryption` field of the serve namespace produced by
`loadConfigFromEnv`, in terms of the `||`-combination of its two
environment variables. -/
theorem loadConfigFromEnv_serve_encryption (env : Env) :
    (loadConfigFromEnv env).serve.bind PartialServeConfig.encryption =
      (if truthy (jsOr env.CVMI_GATEWAY_ENCRYPTION env.CVMI_SERVE_ENCRYPTION) then (parseEncryptionMode (jsOr env.CVMI_GATEWAY_ENCRYPTION env.CVMI_SERVE_ENCRYPTION)).1 else none) := by
  unfold loadConfigFromEnv
  dsimp only []
  split_ifs <;> rfl
/-- Characterization of the `privateKey` field of the use namespace produced by
`loadConfigFromEnv`, in terms of the `||`-combination of its two
environment variables. -/
theorem loadConfigFromEnv_use_privateKey (env : Env) :
    (loadConfigFromEnv env).use.bind PartialUseConfig.privateKey =
      (if truthy (jsOr env.CVMI_PROXY_PRIVATE_KEY env.CVMI_USE_PRIVATE_KEY) then jsOr env.CVMI_PROXY_PRIVATE_KEY env.CVMI_USE_PRIVATE_KEY else none) := by
  unfold loadConfigFromEnv
  dsimp only []
  split_ifs <;> rfl
/-- Characterization of the `relays` field of the use namespace produced by
`loadConfigFromEnv`, in terms of the `||`-combination of its two
environment variables. -/
theorem loadConfigFromEnv_use_relays (env : Env) :
    (loadConfigFromEnv env).use.bind PartialUseConfig.relays =
      (if truthy (jsOr env.CVMI_PROXY_RELAYS env.CVMI_USE_RELAYS) then some (splitCommas ((jsOr env.CVMI_PROXY_RELAYS env.CVMI_USE_RELAYS).getD "")) else none) := by
  unfold loadConfigFromEnv
  dsimp only []
  split_ifs <;> rfl
/-- Characterization of the `serverPubkey` field of the use namespace produced by
`loadConfigFromEnv`, in terms of the `||`-combination of its two
environment variables. -/
theorem loadConfigFromEnv_use_serverPubkey (env : Env) :
    (loadConfigFromEnv env).use.bind PartialUseConfig.serverPubkey =
      (if truthy (jsOr env.CVMI_PROXY_SERVER_PUBKEY env.CVMI_USE_SERVER_PUBKEY) then jsOr env.CVMI_PROXY_SERVER_PUBKEY env.CVMI_USE_SERVER_PUBKEY else none) := by
  unfold loadConfigFromEnv
  dsimp only []
  split_ifs <;> rfl
/-- Characterization of the `encryption` field of the use namespace produced by
`loadConfigFromEnv`, in terms of the `||`-combination of its two
environment variables. -/
theorem loadConfigFromEnv_use_encryption (env : Env) :
    (loadConfigFromEnv env).use.bind PartialUseConfig.encryption =
      (if truthy (jsOr env.CVMI_PROXY_ENCRYPTION env.CVMI_USE_ENCRYPTION) then (parseEncryptionMode (jsOr env.CVMI_PROXY_ENCRYPTION env.CVMI_USE_ENCRYPTION)).1 else none) := by
  unfold loadConfigFromEnv
  dsimp only []
  split_ifs <;> rfl

/-- C3 counterexample: with both the legacy `CVMI_GATEWAY_PRIVATE_KEY` and
the canonical `CVMI_SERVE_PRIVATE_KEY` set, `loadConfigFromEnv` resolves the
serve private key to the LEGACY value, not the canonical one — the source
checks the gateway/proxy variable first in every `||`-pair. -/
theorem C3_counterexample :
    (loadConfigFromEnv
        { CVMI_GATEWAY_PRIVATE_KEY := some "legacy-value",
          CVMI_SERVE_PRIVATE_KEY := some "canonical-value" }).serve.bind
        PartialServeConfig.privateKey = some "legacy-value" ∧
    ¬(loadConfigFromEnv
        { CVMI_GATEWAY_PRIVATE_KEY := some "legacy-value",
          CVMI_SERVE_PRIVATE_KEY := some "canonical-value" }).serve.bind
        PartialServeConfig.privateKey = some "canonical-value" := by
  decide

/-- C3 (amended): for every aliased field, when the legacy gateway/proxy
variable is set (truthy), `loadConfigFromEnv` resolves the field from the
legacy variable; the canonical serve/use variable is consulted only when
the legacy one is unset or empty. -/
theorem C3_env_alias_precedence :
    (∀ env : Env, truthy env.CVMI_GATEWAY_PRIVATE_KEY = true →
      (loadConfigFromEnv env).serve.bind PartialServeConfig.privateKey = env.CVMI_GATEWAY_PRIVATE_KEY) ∧
    (∀ env : Env, truthy env.CVMI_GATEWAY_PRIVATE_KEY = false → truthy env.CVMI_SERVE_PRIVATE_KEY = true →
      (loadConfigFromEnv env).serve.bind PartialServeConfig.privateKey = env.CVMI_SERVE_PRIVATE_KEY) ∧
    (∀ env : Env, truthy env.CVMI_GATEWAY_RELAYS = true →
      (loadConfigFromEnv env).serve.bind PartialServeConfig.relays = some (splitCommas (env.CVMI_GATEWAY_RELAYS.getD ""))) ∧
    (∀ env : Env, truthy env.CVMI_GATEWAY_RELAYS = false → truthy env.CVMI_SERVE_RELAYS = true →
      (loadConfigFromEnv env).serve.bind PartialServeConfig.relays = some (splitCommas (env.CVMI_SERVE_RELAYS.getD ""))) ∧
    (∀ env : Env, truthy env.CVMI_GATEWAY_PUBLIC = true →
      (loadConfigFromEnv env).serve.bind PartialServeConfig.public = some (decide (env.CVMI_GATEWAY_PUBLIC = some "true"))) ∧
    (∀ env : Env, truthy env.CVMI_GATEWAY_PUBLIC = false → truthy env.CVMI_SERVE_PUBLIC = true →
      (loadConfigFromEnv env).serve.bind PartialServeConfig.public = some (decide (env.CVMI_SERVE_PUBLIC = some "true"))) ∧
    (∀ env : Env, truthy env.CVMI_GATEWAY_ENCRYPTION = true →
      (loadConfigFromEnv env).serve.bind PartialServeConfig.encryption = (parseEncryptionMode env.CVMI_GATEWAY_ENCRYPTION).1) ∧
    (∀ env : Env, truthy env.CVMI_GATEWAY_ENCRYPTION = false → truthy env.CVMI_SERVE_ENCRYPTION = true →
      (loadConfigFromEnv env).serve.bind PartialServeConfig.encryption = (parseEncryptionMode env.CVMI_SERVE_ENCRYPTION).1) ∧
    (∀ env : Env, truthy env.CVMI_PROXY_PRIVATE_KEY = true →
      (loadConfigFromEnv env).use.bind PartialUseConfig.privateKey = env.CVMI_PROXY_PRIVATE_KEY) ∧
    (∀ env : Env, truthy env.CVMI_PROXY_PRIVATE_KEY = false → truthy env.CVMI_USE_PRIVATE_KEY = true →
      (loadConfigFromEnv env).use.bind PartialUseConfig.privateKey = env.CVMI_USE_PRIVATE_KEY) ∧
    (∀ env : Env, truthy env.CVMI_PROXY_RELAYS = true →
      (loadConfigFromEnv env).use.bind PartialUseConfig.relays = some (splitCommas (env.CVMI_PROXY_RELAYS.getD ""))) ∧
    (∀ env : Env, truthy env.CVMI_PROXY_RELAYS = false → truthy env.CVMI_USE_RELAYS = true →
      (loadConfigFromEnv env).use.bind PartialUseConfig.relays = some (splitCommas (env.CVMI_USE_RELAYS.getD ""))) ∧
    (∀ env : Env, truthy env.CVMI_PROXY_SERVER_PUBKEY = true →
      (loadConfigFromEnv env).use.bind PartialUseConfig.serverPubkey = env.CVMI_PROXY_SERVER_PUBKEY) ∧
    (∀ env : Env, truthy env.CVMI_PROXY_SERVER_PUBKEY = false → truthy env.CVMI_USE_SERVER_PUBKEY = true →
      (loadConfigFromEnv env).use.bind PartialUseConfig.serverPubkey = env.CVMI_USE_SERVER_PUBKEY) ∧
    (∀ env : Env, truthy env.CVMI_PROXY_ENCRYPTION = true →
      (loadConfigFromEnv env).use.bind PartialUseConfig.encryption = (parseEncryptionMode env.CVMI_PROXY_ENCRYPTION).1) ∧
    (∀ env : Env, truthy env.CVMI_PROXY_ENCRYPTION = false → truthy env.CVMI_USE_ENCRYPTION = true →
      (loadConfigFromEnv env).use.bind PartialUseConfig.encryption = (parseEncryptionMode env.CVMI_USE_ENCRYPTION).1) := by
  refine ⟨?_, ?_, ?_, ?_, ?_, ?_, ?_, ?_, ?_, ?_, ?_, ?_, ?_, ?_, ?_, ?_⟩
  · intro env h
    rw [loadConfigFromEnv_serve_privateKey env, jsOr_left _ _ h, if_pos h]
  · intro env h1 h2
    rw [loadConfigFromEnv_serve_privateKey env, jsOr_right _ _ h1, if_pos h2]
  · intro env h
    rw [loadConfigFromEnv_serve_relays env, jsOr_left _ _ h, if_pos h]
  · intro env h1 h2
    rw [loadConfigFromEnv_serve_relays env, jsOr_right _ _ h1, if_pos h2]
  · intro env h
    rw [loadConfigFromEnv_serve_public env, jsOr_left _ _ h, if_pos h]
  · intro env h1 h2
    rw [loadConfigFromEnv_serve_public env, jsOr_right _ _ h1, if_pos h2]
  · intro env h
    rw [loadConfigFromEnv_serve_encryption env, jsOr_left _ _ h, if_pos h]
  · intro env h1 h2
    rw [loadConfigFromEnv_serve_encryption env, jsOr_right _ _ h1, if_pos h2]
  · intro env h
    rw [loadConfigFromEnv_use_privateKey env, jsOr_left _ _ h, if_pos h]
  · intro env h1 h2
    rw [loadConfigFromEnv_use_privateKey env, jsOr_right _ _ h1, if_pos h2]
  · intro env h
    rw [loadConfigFromEnv_use_relays env, jsOr_left _ _ h, if_pos h]
  · intro env h1 h2
    rw [loadConfigFromEnv_use_relays env, jsOr_right _ _ h1, if_pos h2]
  · intro env h
    rw [loadConfigFromEnv_use_serverPubkey env, jsOr_left _ _ h, if_pos h]
  · intro env h1 h2
    rw [loadConfigFromEnv_use_serverPubkey env, jsOr_right _ _ h1, if_pos h2]
  · intro env h
    rw [loadConfigFromEnv_use_encryption env, jsOr_left _ _ h, if_pos h]
  · intro env h1 h2
    rw [loadConfigFromEnv_use_encryption env, jsOr_right _ _ h1, if_pos h2]

/-- Closed witness for the hypotheses of `C3_env_alias_precedence`: the
legacy serve private key wins when both variables are set, and the
canonical one is used when only it is set. -/
theorem C3_env_alias_precedence_witness :
    (loadConfigFromEnv
        { CVMI_GATEWAY_PRIVATE_KEY := some "g",
          CVMI_SERVE_PRIVATE_KEY := some "s" }).serve.bind
        PartialServeConfig.privateKey = some "g" ∧
    (loadConfigFromEnv { CVMI_SERVE_PRIVATE_KEY := some "s" }).serve.bind
        PartialServeConfig.privateKey = some "s" :=
  ⟨C3_env_alias_precedence.1
      { CVMI_GATEWAY_PRIVATE_KEY := some "g", CVMI_SERVE_PRIVATE_KEY := some "s" }
      (by decide),
    C3_env_alias_precedence.2.1 { CVMI_SERVE_PRIVATE_KEY := some "s" } (by decide)
      (by decide)⟩


/-- C9: the relay list actually handed to the serve gateway or the use
proxy is never empty — the call-site truthiness check replaces both an
absent relays field and an explicitly configured empty list with
`DEFAULT_RELAYS`, even though the empty list survives merging and
`getServeConfig`/`getUseConfig` defaulting. -/
theorem C9_runtime_relays_nonempty :
    (∀ merged : PartialServeConfig,
      serveRelaysRuntime merged ≠ [] ∧
      ((merged.relays = none ∨ merged.relays = some []) →
        serveRelaysRuntime merged = DEFAULT_RELAYS)) ∧
    (∀ merged : PartialUseConfig,
      useRelaysRuntime merged ≠ [] ∧
      ((merged.relays = none ∨ merged.relays = some []) →
        useRelaysRuntime merged = DEFAULT_RELAYS)) := by
  constructor
  · intro merged
    constructor
    · cases hr : merged.relays with
      | none => simp [serveRelaysRuntime, getServeConfig, nullish, hr, DEFAULT_RELAYS]
      | some l =>
        cases l with
        | nil => simp [serveRelaysRuntime, getServeConfig, nullish, hr, DEFAULT_RELAYS]
        | cons x xs => simp [serveRelaysRuntime, getServeConfig, nullish, hr]
    · intro hd
      rcases hd with h | h <;>
        simp [serveRelaysRuntime, getServeConfig, nullish, h, DEFAULT_RELAYS]
  · intro merged
    constructor
    · cases hr : merged.relays with
      | none => simp [useRelaysRuntime, getUseConfig, nullish, hr, DEFAULT_RELAYS]
      | some l =>
        cases l with
        | nil => simp [useRelaysRuntime, getUseConfig, nullish, hr, DEFAULT_RELAYS]
        | cons x xs => simp [useRelaysRuntime, getUseConfig, nullish, hr]
    · intro hd
      rcases hd with h | h <;>
        simp [useRelaysRuntime, getUseConfig, nullish, h, DEFAULT_RELAYS]

/-- Closed witness for the hypotheses of `C9_runtime_relays_nonempty`: an
explicitly empty relay list and an absent relay list both reach the runtime
as `DEFAULT_RELAYS`. -/
theorem C9_runtime_relays_nonempty_witness :
    serveRelaysRuntime { relays := some [] } = DEFAULT_RELAYS ∧
    useRelaysRuntime {} = DEFAULT_RELAYS :=
  ⟨(C9_runtime_relays_nonempty.1 { relays := some [] }).2 (Or.inr rfl),
    (C9_runtime_relays_nonempty.2 {}).2 (Or.inl rfl)⟩

end Cvmi




